import Mathlib

/-!
Verification of the metric instrument facade (api/metric/sync.go of the
opentelemetry-go repository): a shallow embedding of the construction safety
net, the instrument handles, measurement construction, and the delegation of
recording operations to backend capability interfaces.

Effectful facade operations are embedded in writer style: each operation that
may call the wrapped capability interface returns, next to its result, the
list of calls it issues on that interface, so that delegation traces are
explicit values.
-/

/-- Modelled from the spec: an opaque cancellation/deadline-bearing context
value (Go context.Context, an external collaborator); the facade passes it
through unexamined, so it is an opaque token here. -/
structure Ctx where
  token : Nat
deriving DecidableEq, Repr

/-- Modelled from the spec: one key-value attribute (kv.KeyValue, an external
collaborator, not under src); keys and values are opaque strings here. -/
structure KeyValue where
  key : String
  value : String
deriving DecidableEq, Repr

/-- A label set, as passed to the capability interfaces. -/
abbrev LabelSet := List KeyValue

/-- Modelled from the spec: a non-nil Go error value. The sentinel produced by
errors.New in sync.go is a dedicated constructor, distinct by construction
from every opaque backend-reported error; Go nil errors are Option.none at
use sites. -/
inductive GoError where
  | sdkNilImpl : GoError
  | backendReported : Nat → String → GoError
deriving DecidableEq, Repr

/-- ErrSDKReturnedNilImpl is used when one of the MeterImpl New methods
returns nil. -/
def ErrSDKReturnedNilImpl : GoError := GoError.sdkNilImpl

/-- Modelled from the spec: the kind tag of a Numeric Value. -/
inductive NumberKind where
  | Int64Kind : NumberKind
  | Float64Kind : NumberKind
deriving DecidableEq, Repr

/-- Modelled from the spec: the Numeric Value, a tagged union over a 64-bit
signed integer and a 64-bit floating-point quantity (api/metric/number.go,
not under src). The facade performs no conversion and no arithmetic on the
payload, so the floating payload is carried opaquely as its 64-bit pattern,
a natural number below 2^64. -/
inductive Number where
  | int64 : Int → Number
  | float64 : Nat → Number
deriving DecidableEq, Repr

/-- The kind tag of a number. -/
def Number.Kind : Number → NumberKind
  | Number.int64 _ => NumberKind.Int64Kind
  | Number.float64 _ => NumberKind.Float64Kind

/-- Modelled from the spec: construct-from-integer, fixing the integer kind. -/
def NewInt64Number (v : Int) : Number := Number.int64 v

/-- Modelled from the spec: construct-from-float, fixing the floating kind and
carrying the 64-bit pattern unchanged. -/
def NewFloat64Number (v : Nat) : Number := Number.float64 v

/-- Modelled from the spec: a non-nil synchronous capability interface value,
either the built-in no-op implementation or an opaque backend-supplied
implementation identified by an id. A nil Go interface value is Option.none
at use sites. -/
inductive SyncImpl where
  | noop : SyncImpl
  | backend : Nat → SyncImpl
deriving DecidableEq, Repr

/-- NoopSync is the built-in no-op synchronous implementation (declared
outside src; modelled from the spec as the shared stateless no-op value). -/
def NoopSync : SyncImpl := SyncImpl.noop

/-- Modelled from the spec: a bound synchronous capability interface value,
produced by Bind: the implementation it came from together with the fixed
label set chosen at bind time. -/
structure BoundSyncImpl where
  impl : SyncImpl
  labels : LabelSet
deriving DecidableEq, Repr

/-- Modelled from the spec: a non-nil asynchronous capability interface
value. -/
inductive AsyncImpl where
  | noop : AsyncImpl
  | backend : Nat → AsyncImpl
deriving DecidableEq, Repr

/-- NoopAsync is the built-in no-op asynchronous implementation. -/
def NoopAsync : AsyncImpl := AsyncImpl.noop

/-- One call issued by the facade on a capability interface: the unit of the
observable delegation trace. -/
inductive Call where
  | bind : SyncImpl → LabelSet → Call
  | recordOne : SyncImpl → Ctx → Number → LabelSet → Call
  | boundRecordOne : BoundSyncImpl → Ctx → Number → Call
  | unbind : BoundSyncImpl → Call
deriving DecidableEq, Repr

/-- Modelled from the spec: produce-a-bound-instrument. The returned bound
interface carries the fixed label set; the call itself is the trace. -/
def SyncImpl.Bind (impl : SyncImpl) (labels : LabelSet) :
    BoundSyncImpl × List Call :=
  (⟨impl, labels⟩, [Call.bind impl labels])

/-- Modelled from the spec: record-one with immediate effect on the unbound
path; the facade only issues the call, the backend effect is opaque. -/
def SyncImpl.RecordOne (impl : SyncImpl) (ctx : Ctx) (number : Number)
    (labels : LabelSet) : List Call :=
  [Call.recordOne impl ctx number labels]

/-- Modelled from the spec: bound record-one, using the label set fixed at
bind time. -/
def BoundSyncImpl.RecordOne (b : BoundSyncImpl) (ctx : Ctx) (number : Number) :
    List Call :=
  [Call.boundRecordOne b ctx number]

/-- Modelled from the spec: release of a bound instrument. -/
def BoundSyncImpl.Unbind (b : BoundSyncImpl) : List Call :=
  [Call.unbind b]

/-- Modelled from the spec: one logical recording as seen from the backend
perspective: which backend instrument receives it, the context, the value,
and the label set that qualifies it. -/
structure LogicalRecording where
  implId : Nat
  ctx : Ctx
  number : Number
  labels : LabelSet
deriving DecidableEq, Repr

/-- Modelled from the spec: the logical recording a single call delivers to a
real backend. Calls on the no-op implementation produce no observable effect;
bind and unbind deliver no recording by themselves. -/
def Call.observe : Call → Option LogicalRecording
  | Call.recordOne (SyncImpl.backend id) ctx n labels => some ⟨id, ctx, n, labels⟩
  | Call.boundRecordOne ⟨SyncImpl.backend id, labels⟩ ctx n => some ⟨id, ctx, n, labels⟩
  | _ => none

/-- The logical recordings a delegation trace delivers to real backends. -/
def observations (trace : List Call) : List LogicalRecording :=
  trace.filterMap Call.observe

/-- Measurement is used for reporting a synchronous batch of metric values. -/
structure Measurement where
  number : Number
  instrument : SyncImpl
deriving DecidableEq, Repr

/-- syncInstrument contains a SyncImpl. -/
structure syncInstrument where
  instrument : SyncImpl
deriving DecidableEq, Repr

/-- syncBoundInstrument contains a BoundSyncImpl. -/
structure syncBoundInstrument where
  boundInstrument : BoundSyncImpl
deriving DecidableEq, Repr

/-- asyncInstrument contains a AsyncImpl. -/
structure asyncInstrument where
  instrument : AsyncImpl
deriving DecidableEq, Repr

/-- Modelled from the spec: Observation pairs a number with the asynchronous
instrument that produced it (declared in api/metric/async.go, not under
src; structurally identical to Measurement with an async reference). -/
structure Observation where
  number : Number
  instrument : AsyncImpl
deriving DecidableEq, Repr

/-- SyncImpl returns the instrument that created this measurement. -/
def Measurement.SyncImpl (m : Measurement) : SyncImpl :=
  m.instrument

/-- Number returns a number recorded in this measurement. -/
def Measurement.Number (m : Measurement) : Number :=
  m.number

/-- AsyncImpl returns the instrument that created this observation. -/
def Observation.AsyncImpl (m : Observation) : AsyncImpl :=
  m.instrument

/-- Number returns a number recorded in this observation. -/
def Observation.Number (m : Observation) : Number :=
  m.number

/-- AsyncImpl implements AsyncImpl. -/
def asyncInstrument.AsyncImpl (a : asyncInstrument) : AsyncImpl :=
  a.instrument

/-- SyncImpl returns the implementation object for synchronous instruments. -/
def syncInstrument.SyncImpl (s : syncInstrument) : SyncImpl :=
  s.instrument

/-- newSyncBoundInstrument wraps a BoundSyncImpl. -/
def newSyncBoundInstrument (boundInstrument : BoundSyncImpl) :
    syncBoundInstrument :=
  { boundInstrument := boundInstrument }

/-- newMeasurement pairs an instrument with a number. -/
def newMeasurement (instrument : SyncImpl) (number : Number) : Measurement :=
  { instrument := instrument, number := number }

/-- bind delegates to the Bind of the wrapped implementation and wraps the
result. -/
def syncInstrument.bind (s : syncInstrument) (labels : LabelSet) :
    syncBoundInstrument × List Call :=
  let r := s.instrument.Bind labels
  (newSyncBoundInstrument r.1, r.2)

/-- float64Measurement constructs a Measurement from the wrapped instrument
and a freshly constructed floating number; the body issues no interface
call, hence the empty trace. -/
def syncInstrument.float64Measurement (s : syncInstrument) (value : Nat) :
    Measurement × List Call :=
  (newMeasurement s.instrument (NewFloat64Number value), [])

/-- int64Measurement constructs a Measurement from the wrapped instrument and
a freshly constructed integer number; the body issues no interface call,
hence the empty trace. -/
def syncInstrument.int64Measurement (s : syncInstrument) (value : Int) :
    Measurement × List Call :=
  (newMeasurement s.instrument (NewInt64Number value), [])

/-- directRecord delegates to RecordOne of the wrapped implementation. -/
def syncInstrument.directRecord (s : syncInstrument) (ctx : Ctx)
    (number : Number) (labels : LabelSet) : List Call :=
  s.instrument.RecordOne ctx number labels

/-- directRecord on a bound handle delegates to RecordOne of the wrapped
bound implementation. -/
def syncBoundInstrument.directRecord (h : syncBoundInstrument) (ctx : Ctx)
    (number : Number) : List Call :=
  h.boundInstrument.RecordOne ctx number

/-- Unbind calls SyncImpl.Unbind. -/
def syncBoundInstrument.Unbind (h : syncBoundInstrument) : List Call :=
  h.boundInstrument.Unbind

/-- checkNewAsync receives an AsyncImpl and potential error, and returns the
same types, checking for and ensuring that the returned interface is not
nil. -/
def checkNewAsync (instrument : Option AsyncImpl) (err : Option GoError) :
    asyncInstrument × Option GoError :=
  match instrument with
  | none =>
    let err := match err with
      | none => some ErrSDKReturnedNilImpl
      | some e => some e
    ({ instrument := NoopAsync }, err)
  | some i => ({ instrument := i }, err)

/-- checkNewSync receives an SyncImpl and potential error, and returns the
same types, checking for and ensuring that the returned interface is not
nil. -/
def checkNewSync (instrument : Option SyncImpl) (err : Option GoError) :
    syncInstrument × Option GoError :=
  match instrument with
  | none =>
    let err := match err with
      | none => some ErrSDKReturnedNilImpl
      | some e => some e
    ({ instrument := NoopSync }, err)
  | some i => ({ instrument := i }, err)

/-- Modelled from the spec: the typed integer counter handle; its struct,
declared outside src, embeds the common syncInstrument. -/
structure Int64Counter where
  syncInstrument : syncInstrument
deriving DecidableEq, Repr

/-- Modelled from the spec: the typed floating counter handle. -/
structure Float64Counter where
  syncInstrument : syncInstrument
deriving DecidableEq, Repr

/-- Modelled from the spec: the typed integer measure handle. -/
structure Int64Measure where
  syncInstrument : syncInstrument
deriving DecidableEq, Repr

/-- Modelled from the spec: the typed floating measure handle. -/
structure Float64Measure where
  syncInstrument : syncInstrument
deriving DecidableEq, Repr

/-- Modelled from the spec: the typed integer observer handle; its struct,
declared outside src, embeds the common asyncInstrument. -/
structure Int64Observer where
  asyncInstrument : asyncInstrument
deriving DecidableEq, Repr

/-- Modelled from the spec: the typed floating observer handle. -/
structure Float64Observer where
  asyncInstrument : asyncInstrument
deriving DecidableEq, Repr

/-- wrapInt64CounterInstrument returns an Int64Counter from a SyncImpl. An
error will be generated if the SyncImpl is nil (in which case a No-op is
substituted), otherwise the error passes through. -/
def wrapInt64CounterInstrument (syncInst : Option SyncImpl)
    (err : Option GoError) : Int64Counter × Option GoError :=
  let r := checkNewSync syncInst err
  ({ syncInstrument := r.1 }, r.2)

/-- wrapFloat64CounterInstrument returns an Float64Counter from a SyncImpl. -/
def wrapFloat64CounterInstrument (syncInst : Option SyncImpl)
    (err : Option GoError) : Float64Counter × Option GoError :=
  let r := checkNewSync syncInst err
  ({ syncInstrument := r.1 }, r.2)

/-- wrapInt64MeasureInstrument returns an Int64Measure from a SyncImpl. -/
def wrapInt64MeasureInstrument (syncInst : Option SyncImpl)
    (err : Option GoError) : Int64Measure × Option GoError :=
  let r := checkNewSync syncInst err
  ({ syncInstrument := r.1 }, r.2)

/-- wrapFloat64MeasureInstrument returns an Float64Measure from a SyncImpl. -/
def wrapFloat64MeasureInstrument (syncInst : Option SyncImpl)
    (err : Option GoError) : Float64Measure × Option GoError :=
  let r := checkNewSync syncInst err
  ({ syncInstrument := r.1 }, r.2)

/-- wrapInt64ObserverInstrument returns an Int64Observer from a AsyncImpl. -/
def wrapInt64ObserverInstrument (asyncInst : Option AsyncImpl)
    (err : Option GoError) : Int64Observer × Option GoError :=
  let r := checkNewAsync asyncInst err
  ({ asyncInstrument := r.1 }, r.2)

/-- wrapFloat64ObserverInstrument returns an Float64Observer from a
AsyncImpl. -/
def wrapFloat64ObserverInstrument (asyncInst : Option AsyncImpl)
    (err : Option GoError) : Float64Observer × Option GoError :=
  let r := checkNewAsync asyncInst err
  ({ asyncInstrument := r.1 }, r.2)

/-- C1: for every non-nil implementation and every error value, nil or not,
checkNewSync, checkNewAsync and all six wrap functions built on them wrap
exactly that implementation and return exactly that error; the no-op is not
substituted and a non-nil error is not suppressed. -/
theorem checkNew_nonnil_identity (i : SyncImpl) (a : AsyncImpl)
    (e : Option GoError) :
    checkNewSync (some i) e = ({ instrument := i }, e) ∧
    checkNewAsync (some a) e = ({ instrument := a }, e) ∧
    (wrapInt64CounterInstrument (some i) e).1.syncInstrument
      = { instrument := i } ∧
    (wrapInt64CounterInstrument (some i) e).2 = e ∧
    (wrapFloat64CounterInstrument (some i) e).1.syncInstrument
      = { instrument := i } ∧
    (wrapFloat64CounterInstrument (some i) e).2 = e ∧
    (wrapInt64MeasureInstrument (some i) e).1.syncInstrument
      = { instrument := i } ∧
    (wrapInt64MeasureInstrument (some i) e).2 = e ∧
    (wrapFloat64MeasureInstrument (some i) e).1.syncInstrument
      = { instrument := i } ∧
    (wrapFloat64MeasureInstrument (some i) e).2 = e ∧
    (wrapInt64ObserverInstrument (some a) e).1.asyncInstrument
      = { instrument := a } ∧
    (wrapInt64ObserverInstrument (some a) e).2 = e ∧
    (wrapFloat64ObserverInstrument (some a) e).1.asyncInstrument
      = { instrument := a } ∧
    (wrapFloat64ObserverInstrument (some a) e).2 = e := by
  refine ⟨rfl, rfl, rfl, rfl, rfl, rfl, rfl, rfl, rfl, rfl, rfl, rfl, rfl, rfl⟩

/-- C2: when the backend implementation is nil, checkNewSync and checkNewAsync
wrap the built-in no-op implementation; the returned error is the backend
error unchanged when one is present, otherwise the ErrSDKReturnedNilImpl
sentinel, so it is never nil. -/
theorem checkNew_nil_noop_and_error (e : GoError) :
    checkNewSync none none
      = ({ instrument := NoopSync }, some ErrSDKReturnedNilImpl) ∧
    checkNewSync none (some e) = ({ instrument := NoopSync }, some e) ∧
    checkNewAsync none none
      = ({ instrument := NoopAsync }, some ErrSDKReturnedNilImpl) ∧
    checkNewAsync none (some e) = ({ instrument := NoopAsync }, some e) ∧
    (∀ err : Option GoError, (checkNewSync none err).2 ≠ none) ∧
    (∀ err : Option GoError, (checkNewAsync none err).2 ≠ none) := by
  refine ⟨rfl, rfl, rfl, rfl, ?_, ?_⟩ <;>
    intro err <;> cases err <;> simp [checkNewSync, checkNewAsync]

/-- C3: for every input pair, including (nil, nil), the handle returned by
checkNewSync wraps a concrete non-nil capability interface (the supplied one,
or the no-op), so no later operation dereferences nil; directRecord on the
handle built from (nil, nil) issues only a call on the no-op implementation,
which delivers no logical recording to any backend, and by its type it
raises no error. -/
theorem checkNewSync_always_safe (i : Option SyncImpl) (e : Option GoError)
    (ctx : Ctx) (n : Number) (labels : LabelSet) :
    (∃ impl : SyncImpl, (checkNewSync i e).1 = { instrument := impl }) ∧
    (checkNewSync none none).1.directRecord ctx n labels
      = [Call.recordOne SyncImpl.noop ctx n labels] ∧
    observations ((checkNewSync none none).1.directRecord ctx n labels)
      = [] := by
  refine ⟨?_, rfl, rfl⟩
  cases i with
  | none => exact ⟨NoopSync, rfl⟩
  | some impl => exact ⟨impl, rfl⟩

/-- C4: constructing an integer Measurement from any int64 value and reading
it back yields exactly that value tagged with the integer kind; likewise for
floating values (carried as their 64-bit pattern) and the floating kind. -/
theorem measurement_roundtrip (s : syncInstrument) (v : Int) (w : Nat) :
    (s.int64Measurement v).1.Number = Number.int64 v ∧
    ((s.int64Measurement v).1.Number).Kind = NumberKind.Int64Kind ∧
    (s.float64Measurement w).1.Number = Number.float64 w ∧
    ((s.float64Measurement w).1.Number).Kind = NumberKind.Float64Kind := by
  exact ⟨rfl, rfl, rfl, rfl⟩

/-- C5: measurement construction is pure: for any handle and value it returns
the measurement and an empty delegation trace, so no RecordOne or Bind call
reaches the wrapped implementation, no logical recording is delivered, and
by its type it produces no error. -/
theorem measurement_construction_pure (s : syncInstrument) (v : Int)
    (w : Nat) :
    s.int64Measurement v
      = (newMeasurement s.instrument (NewInt64Number v), []) ∧
    s.float64Measurement w
      = (newMeasurement s.instrument (NewFloat64Number w), []) ∧
    observations (s.int64Measurement v).2 = [] ∧
    observations (s.float64Measurement w).2 = [] := by
  exact ⟨rfl, rfl, rfl, rfl⟩

/-- C6: directRecord on an unbound handle issues exactly one RecordOne call
on the wrapped implementation carrying the context, number and label set
unchanged; directRecord on a bound handle issues exactly one RecordOne call
on the wrapped bound implementation carrying the context and number
unchanged. -/
theorem directRecord_delegates (s : syncInstrument) (h : syncBoundInstrument)
    (ctx : Ctx) (n : Number) (labels : LabelSet) :
    s.directRecord ctx n labels = [Call.recordOne s.instrument ctx n labels] ∧
    h.directRecord ctx n = [Call.boundRecordOne h.boundInstrument ctx n] := by
  exact ⟨rfl, rfl⟩

/-- C7: binding with a label set and recording on the bound handle is
observationally equivalent, from the backend perspective, to a direct record
with the same label set on the unbound handle: the two delegation traces
deliver the same logical recordings. -/
theorem bind_record_equivalent_direct (s : syncInstrument) (L : LabelSet)
    (ctx : Ctx) (V : Number) :
    observations ((s.bind L).2 ++ ((s.bind L).1).directRecord ctx V)
      = observations (s.directRecord ctx V L) := by
  obtain ⟨impl⟩ := s
  cases impl <;> rfl

/-- C8: in the bind, record once, unbind scenario on a counter handle built
from a backend implementation, the facade issues exactly one Bind call, then
exactly one RecordOne call carrying the integer value 5, then exactly one
Unbind call, in that order; and every facade-level Unbind on any bound handle
issues exactly one backend Unbind call. -/
theorem bind_record_unbind_scenario (h : syncBoundInstrument) :
    h.Unbind = [Call.unbind h.boundInstrument] ∧
    ((wrapInt64CounterInstrument (some (SyncImpl.backend 7))
        none).1.syncInstrument.bind [⟨"k", "v"⟩]).2
      ++ (((wrapInt64CounterInstrument (some (SyncImpl.backend 7))
        none).1.syncInstrument.bind [⟨"k", "v"⟩]).1).directRecord ⟨0⟩
          (Number.int64 5)
      ++ (((wrapInt64CounterInstrument (some (SyncImpl.backend 7))
        none).1.syncInstrument.bind [⟨"k", "v"⟩]).1).Unbind
      = [Call.bind (SyncImpl.backend 7) [⟨"k", "v"⟩],
         Call.boundRecordOne ⟨SyncImpl.backend 7, [⟨"k", "v"⟩]⟩ ⟨0⟩
           (Number.int64 5),
         Call.unbind ⟨SyncImpl.backend 7, [⟨"k", "v"⟩]⟩] := by
  exact ⟨rfl, rfl⟩

/-- C9: every Measurement produced by a handle references the same
implementation the handle wraps, for both integer and floating
construction, so a batched measurement is routed to exactly the backend
instrument of the handle that created it. -/
theorem measurement_same_impl (s : syncInstrument) (v : Int) (w : Nat) :
    ((s.int64Measurement v).1).SyncImpl = s.SyncImpl ∧
    ((s.float64Measurement w).1).SyncImpl = s.SyncImpl := by
  exact ⟨rfl, rfl⟩

/-- C10: each of the six typed wrap functions returns exactly the handle and
error produced by checkNewSync, respectively checkNewAsync, on the same
inputs, and on a (nil, nil) input each synthesizes the one shared
ErrSDKReturnedNilImpl sentinel. -/
theorem wrappers_equal_checkNew (i : Option SyncImpl) (a : Option AsyncImpl)
    (e : Option GoError) :
    (wrapInt64CounterInstrument i e).1.syncInstrument = (checkNewSync i e).1 ∧
    (wrapInt64CounterInstrument i e).2 = (checkNewSync i e).2 ∧
    (wrapFloat64CounterInstrument i e).1.syncInstrument
      = (checkNewSync i e).1 ∧
    (wrapFloat64CounterInstrument i e).2 = (checkNewSync i e).2 ∧
    (wrapInt64MeasureInstrument i e).1.syncInstrument = (checkNewSync i e).1 ∧
    (wrapInt64MeasureInstrument i e).2 = (checkNewSync i e).2 ∧
    (wrapFloat64MeasureInstrument i e).1.syncInstrument
      = (checkNewSync i e).1 ∧
    (wrapFloat64MeasureInstrument i e).2 = (checkNewSync i e).2 ∧
    (wrapInt64ObserverInstrument a e).1.asyncInstrument
      = (checkNewAsync a e).1 ∧
    (wrapInt64ObserverInstrument a e).2 = (checkNewAsync a e).2 ∧
    (wrapFloat64ObserverInstrument a e).1.asyncInstrument
      = (checkNewAsync a e).1 ∧
    (wrapFloat64ObserverInstrument a e).2 = (checkNewAsync a e).2 ∧
    (wrapInt64CounterInstrument none none).2 = some ErrSDKReturnedNilImpl ∧
    (wrapFloat64CounterInstrument none none).2 = some ErrSDKReturnedNilImpl ∧
    (wrapInt64MeasureInstrument none none).2 = some ErrSDKReturnedNilImpl ∧
    (wrapFloat64MeasureInstrument none none).2 = some ErrSDKReturnedNilImpl ∧
    (wrapInt64ObserverInstrument none none).2 = some ErrSDKReturnedNilImpl ∧
    (wrapFloat64ObserverInstrument none none).2
      = some ErrSDKReturnedNilImpl := by
  refine ⟨rfl, rfl, rfl, rfl, rfl, rfl, rfl, rfl, rfl, rfl, rfl, rfl, rfl,
    rfl, rfl, rfl, rfl, rfl⟩
